import Mathlib

/-!
Shallow embedding of `src/backend/injector.py` (a Chrome-DevTools-Protocol
client): JSON values, the per-tab session state (`Tab`), command sending with
response correlation by id (`_send_devtools_cmd`), tab discovery with its
retry loop (`get_tabs` / `get_tab`), the reload-and-inject workflow
(`reload_and_evaluate`), the DOM-ready wrapping of on-load scripts (which in
the source goes through Python's `str.format`), and the `tab_has_global_var`
facade.  Transport effects (HTTP, WebSocket) are modelled by passing the
inbound message stream / the host's connection behaviour as explicit
parameters; Python exceptions are modelled with `Except PyErr`.
-/

/-- JSON values, as produced by `message.json()` / `res.json()` in the source.
Numbers are modelled as integers (CDP command ids and the payloads relevant
here are integral). -/
inductive JVal where
  | null
  | bool (b : Bool)
  | num (n : Int)
  | str (s : String)
  | arr (elems : List JVal)
  | obj (fields : List (String × JVal))
deriving Repr

/-- Dictionary lookup `v[k]` / `k in v` on a JSON object; `none` when the key
is absent or the value is not an object. -/
def JVal.lookup : JVal → String → Option JVal
  | .obj fields, k => go fields k
  | _, _ => none
where
  go : List (String × JVal) → String → Option JVal
    | [], _ => none
    | (k0, v) :: rest, k => if k0 = k then some v else go rest k

/-- The check `"id" in msg and msg["id"] == dc["id"]` from
`_send_devtools_cmd`: the inbound message carries an `id` field equal to the
given command id.  Ids are JSON numbers; the session counter is a natural. -/
def JVal.idIs (m : JVal) (i : Nat) : Bool :=
  match m.lookup "id" with
  | some (.num n) => n == Int.ofNat i
  | _ => false

/-- Python exceptions raised by the source, by kind. -/
inductive PyErr where
  /-- `RuntimeError("Websocket not opened")` from `_send_devtools_cmd`. -/
  | notConnected
  /-- `Exception(f"/json did not return 200. {body}")` from `get_tabs`;
  carries the full exception message. -/
  | discovery (msg : String)
  /-- `ValueError(f"Tab {name} not found")` from `get_tab`. -/
  | tabNotFound (name : String)
  /-- `KeyError` from subscripting a dict without the key (`Tab.__init__`,
  `breakpoint_res["result"]` and the like). -/
  | keyError (key : String)
  /-- `TypeError` (subscripting / membership-testing a non-container such as
  `None`). -/
  | typeError (msg : String)
  /-- `ValueError` raised by `str.format` on a malformed template. -/
  | valueError (msg : String)
deriving Repr, DecidableEq

/-- One `Tab` instance of the source.  `title`, `id` and `ws_url` hold the
raw JSON values read out of the discovery entry.  `websocket` is `none`
before `open_websocket` (Python: the attribute is `None`, hence falsy) and
`some stream` once connected, where `stream` lists the inbound messages still
to be read off the WebSocket.  `cmd_id` models the counter: though declared
as a class attribute `cmd_id = 0` in Python, `self.cmd_id += 1` reads the
class default and writes an instance attribute, so each instance counts
independently from 0 — hence a per-instance field here. -/
structure Tab where
  title : JVal
  id : JVal
  ws_url : JVal
  websocket : Option (List JVal)
  cmd_id : Nat
deriving Repr

/-- `Tab.__init__(res)`: reads `res["title"]`, `res["id"]`,
`res["webSocketDebuggerUrl"]`; a missing key raises `KeyError`.  The
websocket starts unopened and the command counter at its class default 0. -/
def Tab.ofJson (res : JVal) : Except PyErr Tab :=
  match res.lookup "title" with
  | none => .error (.keyError "title")
  | some t =>
    match res.lookup "id" with
    | none => .error (.keyError "id")
    | some i =>
      match res.lookup "webSocketDebuggerUrl" with
      | none => .error (.keyError "webSocketDebuggerUrl")
      | some w => .ok ⟨t, i, w, none, 0⟩

/-- `open_websocket`: connects, after which the inbound stream (provided by
the environment) is readable.  The aiohttp client object is not modelled. -/
def Tab.open_websocket (tab : Tab) (stream : List JVal) : Tab :=
  { tab with websocket := some stream }

/-- `close_websocket`: closes the aiohttp client.  `self.websocket` is left
untouched by the source (it is never reset to `None`), so the modelled state
is unchanged. -/
def Tab.close_websocket (tab : Tab) : Tab :=
  tab

/-- One outbound JSON message `{**dc, "id": id}` as sent by
`_send_devtools_cmd`, together with the `receive` flag it was sent under
(`awaited = true` means the call blocked for the correlated response). -/
structure SentCmd where
  id : Nat
  method : String
  params : Option JVal
  awaited : Bool
deriving Repr

/-- The `async for msg in self.listen_for_message()` loop body of
`_send_devtools_cmd`: read messages off the stream, discarding each one that
lacks a matching `id` (events and unrelated responses), until one with the
given id arrives; return it with the rest of the stream.  `none` when the
stream ends first (the connection closed). -/
def scanForId (i : Nat) : List JVal → Option (JVal × List JVal)
  | [] => none
  | m :: rest => if m.idIs i then some (m, rest) else scanForId i rest

/-- `Tab._send_devtools_cmd(dc, receive)`: raises `RuntimeError` when the
websocket was never opened; otherwise increments `cmd_id`, stamps it into the
command, sends it, and — when `receive` — blocks scanning the inbound stream
for the message with the matching id, returning it (or `None` when the stream
ends first).  Returns the response, the updated state, and the sent message. -/
def Tab.sendDevtoolsCmd (tab : Tab) (method : String) (params : Option JVal)
    (receive : Bool) : Except PyErr (Option JVal × Tab × SentCmd) :=
  match tab.websocket with
  | none => .error .notConnected
  | some inbound =>
    let newId := tab.cmd_id + 1
    let sent : SentCmd := ⟨newId, method, params, receive⟩
    if receive then
      match scanForId newId inbound with
      | some (msg, rest) =>
        .ok (some msg, { tab with cmd_id := newId, websocket := some rest }, sent)
      | none =>
        .ok (none, { tab with cmd_id := newId, websocket := some [] }, sent)
    else
      .ok (none, { tab with cmd_id := newId, websocket := some inbound }, sent)

/-- The `params` dict built by `evaluate_js` (and by the fire-and-forget
evaluates of `reload_and_evaluate`, where `awaitPromise` is `False`). -/
def evalParams (js : String) (run_async : Bool) : JVal :=
  .obj [("expression", .str js), ("userGesture", .bool true),
        ("awaitPromise", .bool run_async)]

/-- `Tab.evaluate_js(js, run_async, manage_socket, get_result)`: optionally
opens the websocket (on the stream `env` the host will deliver), sends
`Runtime.evaluate`, awaiting the correlated response iff `get_result`, then
optionally closes the websocket.  Returns the response (possibly `None`) and
the updated tab. -/
def Tab.evaluate_js (env : List JVal) (tab0 : Tab) (js : String)
    (run_async manage_socket get_result : Bool) :
    Except PyErr (Option JVal × Tab) :=
  let tab := if manage_socket then tab0.open_websocket env else tab0
  match tab.sendDevtoolsCmd "Runtime.evaluate" (some (evalParams js run_async))
      get_result with
  | .error e => .error e
  | .ok (res, tab1, _) =>
    let tab2 := if manage_socket then tab1.close_websocket else tab1
    .ok (res, tab2)

/-- Run a sequence of `_send_devtools_cmd` calls (method, params, receive
flag) on one session, threading the state; collects each call's response
paired with the message it sent.  A `NotConnectedError` (only possible when
the websocket was never opened) stops the run, since in Python the exception
propagates. -/
def Tab.runSeq (tab : Tab) : List (String × Option JVal × Bool) →
    List (Option JVal × SentCmd) × Tab
  | [] => ([], tab)
  | (m, p, rcv) :: rest =>
    match tab.sendDevtoolsCmd m p rcv with
    | .error _ => ([], tab)
    | .ok (resp, tab1, sent) =>
      let (rs, tabf) := tab1.runSeq rest
      ((resp, sent) :: rs, tabf)

/-- `Tab.reload_and_evaluate(js, manage_socket)`: the breakpoint-gated reload
workflow.  Awaited `Debugger.enable`, awaited
`Debugger.setInstrumentationBreakpoint` (instrumentation
`beforeScriptExecution`), awaited `Page.reload`, three fire-and-forget
`Runtime.evaluate` of `js`, awaited `Debugger.removeBreakpoint` (with the id
extracted from the breakpoint response — `TypeError` when that response was
`None`, `KeyError` when a field is missing), awaited `Debugger.resume`,
awaited `Debugger.disable`.  Returns the final tab state and the trace of
sent commands in order. -/
def Tab.reload_and_evaluate (env : List JVal) (tab0 : Tab) (js : String)
    (manage_socket : Bool) : Except PyErr (Tab × List SentCmd) :=
  let tab := if manage_socket then tab0.open_websocket env else tab0
  match tab.sendDevtoolsCmd "Debugger.enable" none true with
  | .error e => .error e
  | .ok (_, tab, s1) =>
    match tab.sendDevtoolsCmd "Debugger.setInstrumentationBreakpoint"
        (some (.obj [("instrumentation", .str "beforeScriptExecution")])) true with
    | .error e => .error e
    | .ok (breakpoint_res, tab, s2) =>
      match tab.sendDevtoolsCmd "Page.reload" none true with
      | .error e => .error e
      | .ok (_, tab, s3) =>
        match tab.sendDevtoolsCmd "Runtime.evaluate"
            (some (evalParams js false)) false with
        | .error e => .error e
        | .ok (_, tab, s4) =>
          match tab.sendDevtoolsCmd "Runtime.evaluate"
              (some (evalParams js false)) false with
          | .error e => .error e
          | .ok (_, tab, s5) =>
            match tab.sendDevtoolsCmd "Runtime.evaluate"
                (some (evalParams js false)) false with
            | .error e => .error e
            | .ok (_, tab, s6) =>
              match breakpoint_res with
              | none => .error (.typeError "NoneType is not subscriptable")
              | some bres =>
                match bres.lookup "result" with
                | none => .error (.keyError "result")
                | some inner =>
                  match inner.lookup "breakpointId" with
                  | none => .error (.keyError "breakpointId")
                  | some bpId =>
                    match tab.sendDevtoolsCmd "Debugger.removeBreakpoint"
                        (some (.obj [("breakpointId", bpId)])) true with
                    | .error e => .error e
                    | .ok (_, tab, s7) =>
                      match tab.sendDevtoolsCmd "Debugger.resume" none true with
                      | .error e => .error e
                      | .ok (_, tab, s8) =>
                        match tab.sendDevtoolsCmd "Debugger.disable" none true with
                        | .error e => .error e
                        | .ok (_, tab, s9) =>
                          let tabf := if manage_socket then tab.close_websocket else tab
                          .ok (tabf, [s1, s2, s3, s4, s5, s6, s7, s8, s9])

/-- One HTTP response from `GET {BASE_ADDRESS}/json`: the status code, the
parsed JSON body (used via `res.json()` on the 200 path) and the body text
(used via `res.text()` on the error path). -/
structure ConnResponse where
  status : Nat
  json : JVal
  text : String
deriving Repr

/-- What one connection attempt by `get_tabs` meets: either
`ClientConnectorError` (the host is not accepting connections) or a
response. -/
inductive ConnAttempt where
  | refused
  | got (r : ConnResponse)
deriving Repr

/-- The list comprehension `[Tab(i) for i in r]`: builds a `Tab` per entry,
left to right; the first entry missing a required key raises `KeyError`. -/
def tabsOfJson : List JVal → Except PyErr (List Tab)
  | [] => .ok []
  | i :: rest =>
    match Tab.ofJson i with
    | .error e => .error e
    | .ok t =>
      match tabsOfJson rest with
      | .error e => .error e
      | .ok ts => .ok (t :: ts)

/-- The tail of `get_tabs` once a response has been obtained: on status 200
parse the JSON array into tabs; on any other status raise
`Exception(f"/json did not return 200. {text}")`.  Iterating a non-array
body is modelled as a `TypeError`. -/
def getTabsProcess (r : ConnResponse) : Except PyErr (List Tab) :=
  if r.status = 200 then
    match r.json with
    | .arr items => tabsOfJson items
    | _ => .error (.typeError "response body is not a JSON array")
  else
    .error (.discovery ("/json did not return 200. " ++ r.text))

/-- The `while True` retry loop of `get_tabs`: attempt `k`, and on
`ClientConnectorError` sleep 5 seconds and try attempt `k+1`.  `host` gives
the outcome of each attempt; the result pairs the list of sleep durations
performed (one `5` per refused attempt) with the first response obtained.
`fuel` bounds the unrolling of the unbounded loop; `none` means the loop has
not yet terminated within `fuel` attempts. -/
def connectLoop (host : Nat → ConnAttempt) : Nat → Nat →
    Option (List Nat × ConnResponse)
  | 0, _ => none
  | fuel + 1, k =>
    match host k with
    | .got r => some ([], r)
    | .refused =>
      match connectLoop host fuel (k + 1) with
      | some (sleeps, r) => some (5 :: sleeps, r)
      | none => none

/-- `get_tabs()`: retry until the host accepts a connection, then process the
response.  Returns the sleeps performed and the outcome. -/
def get_tabs (host : Nat → ConnAttempt) (fuel : Nat) :
    Option (List Nat × Except PyErr (List Tab)) :=
  match connectLoop host fuel 0 with
  | some (sleeps, r) => some (sleeps, getTabsProcess r)
  | none => none

/-- The comparison `i.title == tab_name` from `get_tab`: `tab_name` is a
Python `str`, so the comparison is true exactly when the stored title is the
equal JSON string. -/
def Tab.titleIs (t : Tab) (name : String) : Bool :=
  match t.title with
  | .str s => s = name
  | _ => false

/-- The body of `get_tab(tab_name)` applied to the tab listing:
`next((i for i in tabs if i.title == tab_name), None)`, raising
`ValueError(f"Tab {tab_name} not found")` when no tab matches.  (`if not
tab:` is true exactly for `None`, since `Tab` instances are always truthy.) -/
def getTabFromList (tabs : List Tab) (name : String) : Except PyErr Tab :=
  match tabs.find? (fun t => t.titleIs name) with
  | some t => .ok t
  | none => .error (.tabNotFound name)

/-- `get_tab(tab_name)`: propagate any error from `get_tabs()`, then select
the first matching tab.  The discovery outcome is passed in explicitly. -/
def get_tab (discovery : Except PyErr (List Tab)) (name : String) :
    Except PyErr Tab :=
  match discovery with
  | .error e => .error e
  | .ok tabs => getTabFromList tabs name

/-- The f-string expression sent by `tab_has_global_var`. -/
def globalVarExpr (v : String) : String :=
  "window[\x27" ++ v ++ "\x27] !== null && window[\x27" ++ v ++
    "\x27] !== undefined"

/-- The chained shape check of `tab_has_global_var`:
`"result" in res and "result" in res["result"] and "value" in
res["result"]["result"]`, returning the final value when present. -/
def resultValue (res : JVal) : Option JVal :=
  match res.lookup "result" with
  | none => none
  | some r1 =>
    match r1.lookup "result" with
    | none => none
    | some r2 => r2.lookup "value"

/-- `tab_has_global_var(tab_name, var_name)`: resolve the tab, returning
`False` when resolution raises `ValueError` (tab not found); other
exceptions propagate.  Then evaluate the existence expression over a managed
socket and return `res["result"]["result"]["value"]`, or `False` when the
response lacks that shape.  A `None` response (stream ended with no matching
id) makes `"result" in res` a `TypeError`, as in Python. -/
def tab_has_global_var (discovery : Except PyErr (List Tab)) (env : List JVal)
    (tab_name var_name : String) : Except PyErr JVal :=
  match get_tab discovery tab_name with
  | .error (.tabNotFound _) => .ok (.bool false)
  | .error e => .error e
  | .ok tab =>
    match tab.evaluate_js env (globalVarExpr var_name) false true true with
    | .error e => .error e
    | .ok (none, _) => .error (.typeError "argument of type NoneType is not iterable")
    | .ok (some res, _) =>
      match resultValue res with
      | none => .ok (.bool false)
      | some v => .ok v

/-- The opening brace character, kept out of literals. -/
def braceOpen : Char := Char.ofNat 123

/-- The closing brace character, kept out of literals. -/
def braceClose : Char := Char.ofNat 125

/-- Scanner state for the `str.format` parser: in literal text, just after a
lone opening brace, just after a lone closing brace, or inside a replacement
field name (characters collected in reverse). -/
inductive FmtState where
  | text
  | pendingOpen
  | pendingClose
  | inField (acc : List Char)
deriving Repr

/-- CPython `str.format` parsing, restricted to what `template.format(js=js)`
exercises: literal text is copied, a doubled brace is an escaped literal
brace, a lone opening brace starts a replacement field whose name is read up
to the closing brace (an opening brace inside the field name raises
`ValueError: unexpected brace in field name`), the field name `js` is
substituted, any other name raises `KeyError`, and an unterminated or stray
brace raises `ValueError`. -/
def pyFormatGo (js : String) : List Char → FmtState → Except PyErr String
  | [], .text => .ok ""
  | [], .pendingOpen =>
    .error (.valueError "Single \x27\x7b\x27 encountered in format string")
  | [], .pendingClose =>
    .error (.valueError "Single \x27\x7d\x27 encountered in format string")
  | [], .inField _ =>
    .error (.valueError "Single \x27\x7b\x27 encountered in format string")
  | c :: rest, .text =>
    if c = braceOpen then pyFormatGo js rest .pendingOpen
    else if c = braceClose then pyFormatGo js rest .pendingClose
    else
      match pyFormatGo js rest .text with
      | .ok s => .ok (String.mk [c] ++ s)
      | .error e => .error e
  | c :: rest, .pendingOpen =>
    if c = braceOpen then
      match pyFormatGo js rest .text with
      | .ok s => .ok (String.mk [braceOpen] ++ s)
      | .error e => .error e
    else if c = braceClose then .error (.keyError "")
    else pyFormatGo js rest (.inField [c])
  | c :: rest, .pendingClose =>
    if c = braceClose then
      match pyFormatGo js rest .text with
      | .ok s => .ok (String.mk [braceClose] ++ s)
      | .error e => .error e
    else .error (.valueError "Single \x27\x7d\x27 encountered in format string")
  | c :: rest, .inField acc =>
    if c = braceClose then
      let name := String.mk acc.reverse
      if name = "js" then
        match pyFormatGo js rest .text with
        | .ok s => .ok (js ++ s)
        | .error e => .error e
      else .error (.keyError name)
    else if c = braceOpen then
      .error (.valueError "unexpected \x27\x7b\x27 in field name")
    else pyFormatGo js rest (.inField (c :: acc))

/-- `template.format(js=js)`. -/
def pyFormatJs (template js : String) : Except PyErr String :=
  pyFormatGo js template.data .text

/-- The triple-quoted wrapper template of
`add_script_to_evaluate_on_new_document`, character for character (its JS
braces are NOT doubled, i.e. not escaped for `str.format`). -/
def domWrapperTemplate : String :=
  "\n        function scriptFunc() \x7b\n            \x7bjs\x7d\n        \x7d\n        if (document.readyState === \x27loading\x27) \x7b\n            addEventListener(\x27DOMContentLoaded\x27, () => \x7b\n            scriptFunc();\n        \x7d);\n        \x7d else \x7b\n            scriptFunc();\n        \x7d\n        "

/-- The `wrappedjs` expression of `add_script_to_evaluate_on_new_document`:
`template.format(js=js) if add_dom_wrapper else js`. -/
def addScriptWrappedSource (js : String) (add_dom_wrapper : Bool) :
    Except PyErr String :=
  if add_dom_wrapper then pyFormatJs domWrapperTemplate js else .ok js

/-- `Tab.add_script_to_evaluate_on_new_document(js, add_dom_wrapper,
manage_socket, get_result)`: build `wrappedjs` (any `str.format` exception
propagates before anything is sent), then send
`Page.addScriptToEvaluateOnNewDocument` with it as `source`, awaiting the
response iff `get_result`. -/
def Tab.add_script_to_evaluate_on_new_document (env : List JVal) (tab0 : Tab)
    (js : String) (add_dom_wrapper manage_socket get_result : Bool) :
    Except PyErr (Option JVal × Tab × List SentCmd) :=
  match addScriptWrappedSource js add_dom_wrapper with
  | .error e => .error e
  | .ok wrappedjs =>
    let tab := if manage_socket then tab0.open_websocket env else tab0
    match tab.sendDevtoolsCmd "Page.addScriptToEvaluateOnNewDocument"
        (some (.obj [("source", .str wrappedjs)])) get_result with
    | .error e => .error e
    | .ok (res, tab1, sent) =>
      let tab2 := if manage_socket then tab1.close_websocket else tab1
      .ok (res, tab2, [sent])

/-- Observer: the messages actually sent by one `_send_devtools_cmd` call
(empty when the call raised before sending). -/
def sentOf : Except PyErr (Option JVal × Tab × SentCmd) → List SentCmd
  | .ok (_, _, s) => [s]
  | .error _ => []

/-- Observer: the trace of sent commands of a `reload_and_evaluate` run
(empty when it raised). -/
def traceOf : Except PyErr (Tab × List SentCmd) → List SentCmd
  | .ok (_, tr) => tr
  | .error _ => []

/-- Observer: the final tab state of a `reload_and_evaluate` run. -/
def tabOf (dflt : Tab) : Except PyErr (Tab × List SentCmd) → Tab
  | .ok (t, _) => t
  | .error _ => dflt

/-- A sample unconnected tab titled `Tab1`. -/
def sampleTab : Tab := ⟨.str "Tab1", .str "t1", .str "ws://tab1", none, 0⟩

/-- First tab of the duplicate-title listing example (title `A`). -/
def tabA1 : Tab := ⟨.str "A", .str "t1", .str "w1", none, 0⟩

/-- Second tab of the duplicate-title listing example (title `B`). -/
def tabB2 : Tab := ⟨.str "B", .str "t2", .str "w2", none, 0⟩

/-- Third tab of the duplicate-title listing example (title `A` again, but a
different tab than `tabA1`). -/
def tabA3 : Tab := ⟨.str "A", .str "t3", .str "w3", none, 0⟩

/-- A well-formed correlated CDP evaluate response (id 1) whose payload is
`\x7bresult: \x7bresult: \x7bvalue: v\x7d\x7d\x7d`. -/
def respWith (v : JVal) : JVal :=
  .obj [("id", .num 1), ("result", .obj [("result", .obj [("value", v)])])]

/-- A connected session whose pending inbound stream holds one unsolicited
event (no id) followed by the response with id 1. -/
def c1Tab : Tab :=
  ⟨.str "T", .str "t0", .str "ws://t0",
   some [.obj [("method", .str "Page.loadEventFired")],
         .obj [("id", .num 1), ("result", .obj [])]], 0⟩

/-- A connected session with an empty pending inbound stream. -/
def c2Tab : Tab := ⟨.str "T", .str "t0", .str "ws://t0", some [], 0⟩

/-- An inbound stream under which `reload_and_evaluate` completes: direct
responses for the six awaited commands (ids 1, 2, 3, 7, 8, 9 of a fresh
session) and no breakpoint-hit event at all. -/
def c3Stream : List JVal :=
  [.obj [("id", .num 1)],
   .obj [("id", .num 2), ("result", .obj [("breakpointId", .str "bp1")])],
   .obj [("id", .num 3)],
   .obj [("id", .num 7)],
   .obj [("id", .num 8)],
   .obj [("id", .num 9)]]

/-! Helper lemmas shared by several claim theorems. -/

/-- The scanning loop returns (as its first component) exactly the first
stream message whose id matches. -/
theorem scanForId_eq_find? (i : Nat) : ∀ l : List JVal,
    (scanForId i l).map Prod.fst = l.find? (fun m => m.idIs i)
  | [] => rfl
  | m :: rest => by
    cases h : m.idIs i with
    | true =>
      rw [@List.find?_cons_of_pos JVal (fun x : JVal => x.idIs i) m rest h]
      simp [scanForId, h]
    | false =>
      have hneg : ¬ ((fun x : JVal => x.idIs i) m = true) := by simp [h]
      rw [@List.find?_cons_of_neg JVal (fun x : JVal => x.idIs i) m rest hneg]
      have ih := scanForId_eq_find? i rest
      simpa only [scanForId, h, Bool.false_eq_true, if_false] using ih

/-- On an open websocket, `_send_devtools_cmd` assigns id `cmd_id + 1`,
sends `(id, method, params)`, and returns (when `receive`) the first inbound
message with that id. -/
theorem sendDevtoolsCmd_open (tab : Tab) (s : List JVal) (m : String)
    (p : Option JVal) (rcv : Bool) (h : tab.websocket = some s) :
    ∃ rest : List JVal,
      tab.sendDevtoolsCmd m p rcv =
        .ok ((if rcv then s.find? (fun x => x.idIs (tab.cmd_id + 1))
              else none),
             { tab with cmd_id := tab.cmd_id + 1, websocket := some rest },
             ⟨tab.cmd_id + 1, m, p, rcv⟩) := by
  cases rcv with
  | false => exact ⟨s, by simp [Tab.sendDevtoolsCmd, h]⟩
  | true =>
    have hf := scanForId_eq_find? (tab.cmd_id + 1) s
    cases hscan : scanForId (tab.cmd_id + 1) s with
    | none =>
      rw [hscan] at hf
      refine ⟨[], ?_⟩
      simp only [Tab.sendDevtoolsCmd, h, hscan, if_true, ← hf]
      rfl
    | some pr =>
      rw [hscan] at hf
      refine ⟨pr.2, ?_⟩
      simp only [Tab.sendDevtoolsCmd, h, hscan, if_true, ← hf]
      rfl

/-- Running any command sequence on an open session: the assigned ids are
consecutive from `cmd_id + 1`, the counter advances by the number of
commands, the websocket stays open, and every returned response carries the
id of its own command. -/
theorem runSeq_spec : ∀ (cmds : List (String × Option JVal × Bool))
    (tab : Tab) (s : List JVal), tab.websocket = some s →
    ((tab.runSeq cmds).1.map (fun pr => pr.2.id) =
        List.range' (tab.cmd_id + 1) cmds.length) ∧
    ((tab.runSeq cmds).2.cmd_id = tab.cmd_id + cmds.length) ∧
    (∃ sf, (tab.runSeq cmds).2.websocket = some sf) ∧
    (∀ pr ∈ (tab.runSeq cmds).1, ∀ mres : JVal, pr.1 = some mres →
        mres.idIs pr.2.id = true)
  | [], tab, s, h => by
    refine ⟨?_, ?_, ⟨s, h⟩, ?_⟩
    · simp [Tab.runSeq]
    · simp [Tab.runSeq]
    · intro pr hpr
      simp [Tab.runSeq] at hpr
  | (m, p, rcv) :: rest, tab, s, h => by
    obtain ⟨str1, hsend⟩ := sendDevtoolsCmd_open tab s m p rcv h
    obtain ⟨ih1, ih2, ih3, ih4⟩ :=
      runSeq_spec rest { tab with cmd_id := tab.cmd_id + 1, websocket := some str1 }
        str1 rfl
    constructor
    · simp only [Tab.runSeq, hsend, List.map_cons, List.length_cons,
        List.range'_succ]
      rw [ih1]
    constructor
    · simp only [Tab.runSeq, hsend]
      rw [ih2]
      show tab.cmd_id + 1 + rest.length = tab.cmd_id + (rest.length + 1)
      omega
    constructor
    · simpa only [Tab.runSeq, hsend] using ih3
    · intro pr hpr mres hmres
      simp only [Tab.runSeq, hsend, List.mem_cons] at hpr
      cases hpr with
      | inl hd =>
        have hid : pr.2.id = tab.cmd_id + 1 := by rw [hd]
        have h1 : pr.1 = (if rcv then s.find? (fun x => x.idIs (tab.cmd_id + 1))
            else none) := by rw [hd]
        rw [hid]
        cases rcv with
        | false =>
          rw [h1] at hmres
          exact absurd hmres (by simp)
        | true =>
          rw [h1] at hmres
          rw [if_pos rfl] at hmres
          have h2 := List.find?_some hmres
          exact h2
      | inr tl => exact ih4 pr tl mres hmres

/-! The claim theorems. -/

/-- C1: a command sent with `await_response=true` on an open session blocks
reading the inbound stream, discards every message that is an event or
carries an unrelated id, and returns exactly the first inbound message whose
id equals the id assigned to that command (`List.find?` with the id
predicate); over any sequence of such commands, interleaved with arbitrary
events and unrelated-id messages, every returned response carries the id of
its own command. -/
theorem c1_send_command_correlates_by_id :
    (∀ (tab : Tab) (s : List JVal) (m : String) (p : Option JVal),
        tab.websocket = some s →
        ∃ tab' : Tab,
          tab.sendDevtoolsCmd m p true =
            .ok (s.find? (fun x => x.idIs (tab.cmd_id + 1)), tab',
                 ⟨tab.cmd_id + 1, m, p, true⟩)) ∧
    (∀ (tab : Tab) (s : List JVal) (cmds : List (String × Option JVal × Bool)),
        tab.websocket = some s →
        ∀ pr ∈ (tab.runSeq cmds).1, ∀ mres : JVal, pr.1 = some mres →
          mres.idIs pr.2.id = true) := by
  constructor
  · intro tab s m p h
    obtain ⟨rest, hsend⟩ := sendDevtoolsCmd_open tab s m p true h
    rw [if_pos rfl] at hsend
    exact ⟨_, hsend⟩
  · intro tab s cmds h
    exact (runSeq_spec cmds tab s h).2.2.2

/-- Witness for C1: a concrete open session whose stream starts with an
unsolicited event; the returned message is the first with the matching id. -/
theorem c1_send_command_correlates_by_id_witness :
    ∃ tab' : Tab,
      c1Tab.sendDevtoolsCmd "Page.enable" none true =
        .ok (([.obj [("method", .str "Page.loadEventFired")],
               .obj [("id", .num 1), ("result", .obj [])]] : List JVal).find?
                (fun x => x.idIs (c1Tab.cmd_id + 1)), tab',
             ⟨c1Tab.cmd_id + 1, "Page.enable", none, true⟩) :=
  c1_send_command_correlates_by_id.1 c1Tab _ "Page.enable" none rfl

/-- C2: the command-id counter is per-session state (a field of each `Tab`
instance) that starts at 0 on construction and is incremented before each
send: over any run of commands on an open connection the assigned ids are
the consecutive naturals from `cmd_id + 1`, hence strictly increasing and
never reused, and the counter ends advanced by the number of commands, so
later sends on the same connection continue strictly above. -/
theorem c2_cmd_ids_strictly_increasing :
    (∀ (j : JVal) (t : Tab), Tab.ofJson j = .ok t →
        t.cmd_id = 0 ∧ t.websocket = none) ∧
    (∀ (tab : Tab) (s : List JVal) (cmds : List (String × Option JVal × Bool)),
        tab.websocket = some s →
        ((tab.runSeq cmds).1.map (fun pr => pr.2.id) =
            List.range' (tab.cmd_id + 1) cmds.length) ∧
        (((tab.runSeq cmds).1.map (fun pr => pr.2.id)).Pairwise (· < ·)) ∧
        ((tab.runSeq cmds).2.cmd_id = tab.cmd_id + cmds.length)) := by
  constructor
  · intro j t h
    unfold Tab.ofJson at h
    split at h
    · exact Except.noConfusion h
    split at h
    · exact Except.noConfusion h
    split at h
    · exact Except.noConfusion h
    · cases h
      exact ⟨rfl, rfl⟩
  · intro tab s cmds h
    obtain ⟨h1, h2, _, _⟩ := runSeq_spec cmds tab s h
    refine ⟨h1, ?_, h2⟩
    rw [h1]
    exact List.pairwise_lt_range' (tab.cmd_id + 1) cmds.length

/-- Witness for C2: two commands on a fresh connected session get ids 1, 2. -/
theorem c2_cmd_ids_strictly_increasing_witness :
    ((c2Tab.runSeq [("Page.enable", none, false), ("Page.disable", none, false)]).1.map
        (fun pr => pr.2.id) = List.range' (c2Tab.cmd_id + 1) 2) ∧
    (((c2Tab.runSeq [("Page.enable", none, false), ("Page.disable", none, false)]).1.map
        (fun pr => pr.2.id)).Pairwise (· < ·)) ∧
    ((c2Tab.runSeq [("Page.enable", none, false), ("Page.disable", none, false)]).2.cmd_id =
        c2Tab.cmd_id + 2) :=
  c2_cmd_ids_strictly_increasing.2 c2Tab []
    [("Page.enable", none, false), ("Page.disable", none, false)] rfl

/-- C9: sending any command on a session whose connection was never opened
raises `NotConnectedError` (`RuntimeError("Websocket not opened")`), and no
message is sent. -/
theorem c9_send_unopened_raises (tab : Tab) (m : String) (p : Option JVal)
    (rcv : Bool) (h : tab.websocket = none) :
    tab.sendDevtoolsCmd m p rcv = .error .notConnected ∧
    sentOf (tab.sendDevtoolsCmd m p rcv) = [] := by
  have hs : tab.sendDevtoolsCmd m p rcv = .error .notConnected := by
    simp [Tab.sendDevtoolsCmd, h]
  exact ⟨hs, by rw [hs]; rfl⟩

/-- Witness for C9: a freshly constructed (never-opened) tab. -/
theorem c9_send_unopened_raises_witness :
    sampleTab.sendDevtoolsCmd "Runtime.evaluate" none true = .error .notConnected ∧
    sentOf (sampleTab.sendDevtoolsCmd "Runtime.evaluate" none true) = [] :=
  c9_send_unopened_raises sampleTab "Runtime.evaluate" none true rfl

/-- C10: when the connection is open but the inbound stream ends before any
message with the matching id arrives, an awaited send returns `None` rather
than a response, with no exception at the send layer; consequently
`evaluate_js` with `get_result=true` returns `None` as well. -/
theorem c10_stream_end_yields_none (tab : Tab) (s : List JVal) (m : String)
    (p : Option JVal) (env : List JVal) (js : String) (ra : Bool)
    (hws : tab.websocket = some s)
    (hnone : ∀ x ∈ s, x.idIs (tab.cmd_id + 1) = false) :
    (∃ tab1 : Tab, tab.sendDevtoolsCmd m p true =
        .ok (none, tab1, ⟨tab.cmd_id + 1, m, p, true⟩)) ∧
    (∃ tab2 : Tab, Tab.evaluate_js env tab js ra false true = .ok (none, tab2)) := by
  have hfind : s.find? (fun x => x.idIs (tab.cmd_id + 1)) = none :=
    List.find?_eq_none.mpr (by intro x hx; simp [hnone x hx])
  constructor
  · obtain ⟨rest, hsend⟩ := sendDevtoolsCmd_open tab s m p true hws
    rw [if_pos rfl, hfind] at hsend
    exact ⟨_, hsend⟩
  · obtain ⟨rest, hsend⟩ := sendDevtoolsCmd_open tab s "Runtime.evaluate"
      (some (evalParams js ra)) true hws
    rw [if_pos rfl, hfind] at hsend
    refine ⟨{ tab with cmd_id := tab.cmd_id + 1, websocket := some rest }, ?_⟩
    simp [Tab.evaluate_js, hsend]

/-- Witness for C10: a connected session whose stream is already empty. -/
theorem c10_stream_end_yields_none_witness :
    (∃ tab1 : Tab, c2Tab.sendDevtoolsCmd "Runtime.evaluate" none true =
        .ok (none, tab1, ⟨c2Tab.cmd_id + 1, "Runtime.evaluate", none, true⟩)) ∧
    (∃ tab2 : Tab, Tab.evaluate_js [] c2Tab "1 + 1" false false true =
        .ok (none, tab2)) :=
  c10_stream_end_yields_none c2Tab [] "Runtime.evaluate" none [] "1 + 1" false
    rfl (by simp)

/-- C4: resolving a tab by title over a given listing succeeds with `t`
exactly when `t` is the first tab in listing order whose title equals the
requested title, fails with `TabNotFoundError` exactly when no title
matches, and on the duplicate-title listing [A, B, A] returns the first
element. -/
theorem c4_get_tab_first_match :
    (∀ (tabs : List Tab) (name : String) (t : Tab),
        (get_tab (.ok tabs) name = .ok t ↔
          ∃ pre post, tabs = pre ++ t :: post ∧ t.titleIs name = true ∧
            ∀ u ∈ pre, u.titleIs name = false)) ∧
    (∀ (tabs : List Tab) (name : String),
        (get_tab (.ok tabs) name = .error (.tabNotFound name) ↔
          ∀ u ∈ tabs, u.titleIs name = false)) ∧
    (get_tab (.ok [tabA1, tabB2, tabA3]) "A" = .ok tabA1) := by
  have hok : ∀ (tabs : List Tab) (name : String) (t : Tab),
      getTabFromList tabs name = .ok t ↔
        tabs.find? (fun u => u.titleIs name) = some t := by
    intro tabs name t
    unfold getTabFromList
    cases hf : tabs.find? (fun u => u.titleIs name) <;> simp
  have herr : ∀ (tabs : List Tab) (name : String),
      getTabFromList tabs name = .error (.tabNotFound name) ↔
        tabs.find? (fun u => u.titleIs name) = none := by
    intro tabs name
    unfold getTabFromList
    cases hf : tabs.find? (fun u => u.titleIs name) <;> simp
  refine ⟨?_, ?_, ?_⟩
  · intro tabs name t
    have hg : get_tab (.ok tabs) name = getTabFromList tabs name := rfl
    rw [hg, hok, List.find?_eq_some]
    constructor
    · rintro ⟨hp, as, bs, heqs, hall⟩
      exact ⟨as, bs, heqs, hp, fun u hu => by simpa using hall u hu⟩
    · rintro ⟨pre, post, heqs, hp, hall⟩
      exact ⟨hp, pre, post, heqs, fun u hu => by simpa using hall u hu⟩
  · intro tabs name
    have hg : get_tab (.ok tabs) name = getTabFromList tabs name := rfl
    rw [hg, herr, List.find?_eq_none]
    constructor
    · intro hnone u hu
      simpa using hnone u hu
    · intro hall u hu
      simp [hall u hu]
  · rfl

/-- Witness for C4: the duplicate-title listing resolves to its first
element. -/
theorem c4_get_tab_first_match_witness :
    get_tab (.ok [tabA1, tabB2, tabA3]) "A" = .ok tabA1 :=
  c4_get_tab_first_match.2.2

/-- Well-formed listing entries produce one tab each, in order. -/
theorem tabsOfJson_length : ∀ items : List JVal,
    (∀ i ∈ items, ∃ t, Tab.ofJson i = .ok t) →
    ∃ tabs, tabsOfJson items = .ok tabs ∧ tabs.length = items.length
  | [], _ => ⟨[], rfl, rfl⟩
  | i :: rest, h => by
    obtain ⟨t, ht⟩ := h i (by simp)
    obtain ⟨tabs, htabs, hlen⟩ :=
      tabsOfJson_length rest (fun j hj => h j (by simp [hj]))
    exact ⟨t :: tabs, by simp [tabsOfJson, ht, htabs], by simp [hlen]⟩

/-- C5: with the host reachable, `get_tabs` raises exactly when the status
is not 200, and the raised error carries the response body (in particular a
500 with body `internal error` raises a discovery error containing that
body); a 200 with a JSON array of well-formed entries yields one Tab per
entry, and an empty array yields the empty list without raising. -/
theorem c5_get_tabs_status :
    (∀ r : ConnResponse, r.status ≠ 200 →
        getTabsProcess r =
          .error (.discovery ("/json did not return 200. " ++ r.text))) ∧
    (∀ (r : ConnResponse) (items : List JVal), r.status = 200 →
        r.json = .arr items → (∀ i ∈ items, ∃ t, Tab.ofJson i = .ok t) →
        ∃ tabs, getTabsProcess r = .ok tabs ∧ tabs.length = items.length) ∧
    (∀ r : ConnResponse, r.status = 200 → r.json = .arr [] →
        getTabsProcess r = .ok []) ∧
    (getTabsProcess ⟨500, .arr [], "internal error"⟩ =
        .error (.discovery "/json did not return 200. internal error")) := by
  refine ⟨?_, ?_, ?_, ?_⟩
  · intro r hr
    unfold getTabsProcess
    rw [if_neg hr]
  · intro r items h200 hjson hwf
    unfold getTabsProcess
    rw [if_pos h200, hjson]
    exact tabsOfJson_length items hwf
  · intro r h200 hjson
    unfold getTabsProcess
    rw [if_pos h200, hjson]
    rfl
  · rfl

/-- Witness for C5: one well-formed entry on a 200 yields one tab. -/
theorem c5_get_tabs_status_witness :
    ∃ tabs, getTabsProcess ⟨200, .arr [.obj [("title", .str "Tab1"),
        ("id", .str "t1"), ("webSocketDebuggerUrl", .str "ws://t1")]], "x"⟩ =
      .ok tabs ∧ tabs.length = 1 :=
  c5_get_tabs_status.2.1 ⟨200, .arr [.obj [("title", .str "Tab1"),
      ("id", .str "t1"), ("webSocketDebuggerUrl", .str "ws://t1")]], "x"⟩
    [.obj [("title", .str "Tab1"), ("id", .str "t1"),
        ("webSocketDebuggerUrl", .str "ws://t1")]] rfl rfl
    (by
      intro i hi
      simp only [List.mem_singleton] at hi
      subst hi
      exact ⟨_, rfl⟩)

/-- The retry loop reaches the first accepting attempt, having slept 5
seconds after each refused one. -/
theorem connectLoop_first_success : ∀ (k : Nat) (host : Nat → ConnAttempt)
    (i fuel : Nat) (r : ConnResponse),
    (∀ j, j < k → host (i + j) = .refused) → host (i + k) = .got r →
    k < fuel → connectLoop host fuel i = some (List.replicate k 5, r)
  | 0, host, i, fuel, r, hfail, hgot, hfuel => by
    cases fuel with
    | zero => omega
    | succ f =>
      have h0 : host i = .got r := by simpa using hgot
      simp [connectLoop, h0]
  | k + 1, host, i, fuel, r, hfail, hgot, hfuel => by
    cases fuel with
    | zero => omega
    | succ f =>
      have h0 : host i = .refused := by simpa using hfail 0 (by omega)
      have ih := connectLoop_first_success k host (i + 1) f r
        (fun j hj => by
          have hh := hfail (j + 1) (by omega)
          rwa [show i + (j + 1) = i + 1 + j by omega] at hh)
        (by rwa [show i + (k + 1) = i + 1 + k by omega] at hgot)
        (by omega)
      simp [connectLoop, h0, ih, List.replicate_succ]

/-- C6: when the host refuses the first `k` connection attempts and accepts
attempt `k`, `get_tabs` never surfaces the connection failures, sleeps 5
seconds after each refused attempt, and returns the processed result of the
first successful attempt. -/
theorem c6_discovery_retries (host : Nat → ConnAttempt) (k : Nat)
    (r : ConnResponse) (fuel : Nat)
    (hfail : ∀ j, j < k → host j = .refused) (hgot : host k = .got r)
    (hfuel : k < fuel) :
    get_tabs host fuel = some (List.replicate k 5, getTabsProcess r) := by
  have hc := connectLoop_first_success k host 0 fuel r
    (fun j hj => by simpa using hfail j hj) (by simpa using hgot) hfuel
  simp [get_tabs, hc]

/-- Witness for C6: the host refuses the first 2 attempts, then accepts. -/
theorem c6_discovery_retries_witness :
    get_tabs (fun n => if n < 2 then .refused else .got ⟨200, .arr [], "[]"⟩) 3 =
      some (List.replicate 2 5, getTabsProcess ⟨200, .arr [], "[]"⟩) :=
  c6_discovery_retries (fun n => if n < 2 then .refused else .got ⟨200, .arr [], "[]"⟩)
    2 ⟨200, .arr [], "[]"⟩ 3 (fun j hj => if_pos hj) (if_neg (by omega)) (by omega)

/-- C7 (code bug in the source): with the DOM-ready wrapper requested
(`add_dom_wrapper=True`, the default), the `str.format` call on the wrapper
template raises `ValueError: unexpected brace in field name` for EVERY
script, because the template's JavaScript braces are not doubled (escaped);
no wrapped source is ever produced, nothing is sent, and the documented
DOM-ready deferral never happens. -/
theorem c7_dom_wrapper_format_always_raises (env : List JVal) (tab0 : Tab)
    (js : String) (ms gr : Bool) :
    addScriptWrappedSource js true =
      .error (.valueError "unexpected \x27\x7b\x27 in field name") ∧
    Tab.add_script_to_evaluate_on_new_document env tab0 js true ms gr =
      .error (.valueError "unexpected \x27\x7b\x27 in field name") := by
  have h : addScriptWrappedSource js true =
      .error (.valueError "unexpected \x27\x7b\x27 in field name") := rfl
  refine ⟨h, ?_⟩
  unfold Tab.add_script_to_evaluate_on_new_document
  rw [h]

/-- C8: `tab_has_global_var` returns the value `true` on a well-formed
response carrying value `true`, `false` on value `false`, `false` (without
raising) on a correlated response missing the `result.result.value` chain,
and `false` (without raising) whenever tab resolution fails with
`TabNotFoundError`, for any inbound stream. -/
theorem c8_tab_has_global_var_contract :
    (tab_has_global_var (.ok [sampleTab]) [respWith (.bool true)] "Tab1" "foo" =
        .ok (.bool true)) ∧
    (tab_has_global_var (.ok [sampleTab]) [respWith (.bool false)] "Tab1" "foo" =
        .ok (.bool false)) ∧
    (tab_has_global_var (.ok [sampleTab]) [.obj [("id", .num 1)]] "Tab1" "foo" =
        .ok (.bool false)) ∧
    (∀ (tabs : List Tab) (env : List JVal) (tn vn : String),
        (∀ t ∈ tabs, t.titleIs tn = false) →
        tab_has_global_var (.ok tabs) env tn vn = .ok (.bool false)) := by
  refine ⟨by rfl, by rfl, by rfl, ?_⟩
  intro tabs env tn vn hno
  have hfind : tabs.find? (fun t => t.titleIs tn) = none :=
    List.find?_eq_none.mpr (by intro x hx; simp [hno x hx])
  simp [tab_has_global_var, get_tab, getTabFromList, hfind]

/-- Witness for C8: resolution failure on an empty listing yields `false`. -/
theorem c8_tab_has_global_var_contract_witness :
    tab_has_global_var (.ok []) [] "Tab1" "foo" = .ok (.bool false) :=
  c8_tab_has_global_var_contract.2.2.2 [] [] "Tab1" "foo" (by simp)

/-- Every sent message of a successful `_send_devtools_cmd` call carries the
incremented id, the method, the params, and the receive flag. -/
theorem sendDevtoolsCmd_sent {tab : Tab} {m : String} {p : Option JVal}
    {rcv : Bool} {resp : Option JVal} {tab' : Tab} {sent : SentCmd}
    (h : tab.sendDevtoolsCmd m p rcv = .ok (resp, tab', sent)) :
    sent = ⟨tab.cmd_id + 1, m, p, rcv⟩ := by
  cases hws : tab.websocket with
  | none =>
    have he : tab.sendDevtoolsCmd m p rcv = .error .notConnected := by
      simp [Tab.sendDevtoolsCmd, hws]
    rw [he] at h
    exact Except.noConfusion h
  | some s =>
    obtain ⟨rest, e⟩ := sendDevtoolsCmd_open tab s m p rcv hws
    rw [e] at h
    injection h with h1
    injection h1 with hr h2
    injection h2 with ht hs
    exact hs.symm

/-- C3: whenever `reload_and_evaluate` completes, the trace of sent commands
is exactly `Debugger.enable` (awaited), `Debugger.setInstrumentationBreakpoint`
(awaited), `Page.reload` (awaited), three fire-and-forget `Runtime.evaluate`
commands carrying the given expression, `Debugger.removeBreakpoint`
(awaited), `Debugger.resume` (awaited), `Debugger.disable` (awaited) — in
that order, with the resume and disable always issued regardless of whether
any breakpoint-hit event appears on the stream. -/
theorem c3_reload_and_evaluate_trace (env : List JVal) (tab : Tab)
    (js : String) (ms : Bool) (tabf : Tab) (trace : List SentCmd)
    (h : Tab.reload_and_evaluate env tab js ms = .ok (tabf, trace)) :
    trace.map (fun sc => (sc.method, sc.awaited)) =
      [("Debugger.enable", true), ("Debugger.setInstrumentationBreakpoint", true),
       ("Page.reload", true), ("Runtime.evaluate", false),
       ("Runtime.evaluate", false), ("Runtime.evaluate", false),
       ("Debugger.removeBreakpoint", true), ("Debugger.resume", true),
       ("Debugger.disable", true)] ∧
    (∀ sc ∈ trace, sc.method = "Runtime.evaluate" →
        sc.params = some (evalParams js false)) := by
  simp only [Tab.reload_and_evaluate] at h
  split at h
  · exact Except.noConfusion h
  rename_i r1 t1 s1 heq1
  split at h
  · exact Except.noConfusion h
  rename_i r2 t2 s2 heq2
  split at h
  · exact Except.noConfusion h
  rename_i r3 t3 s3 heq3
  split at h
  · exact Except.noConfusion h
  rename_i r4 t4 s4 heq4
  split at h
  · exact Except.noConfusion h
  rename_i r5 t5 s5 heq5
  split at h
  · exact Except.noConfusion h
  rename_i r6 t6 s6 heq6
  split at h
  · exact Except.noConfusion h
  rename_i bres heqB
  split at h
  · exact Except.noConfusion h
  rename_i inner heqI
  split at h
  · exact Except.noConfusion h
  rename_i bpId heqP
  split at h
  · exact Except.noConfusion h
  rename_i r7 t7 s7 heq7
  split at h
  · exact Except.noConfusion h
  rename_i r8 t8 s8 heq8
  split at h
  · exact Except.noConfusion h
  rename_i r9 t9 s9 heq9
  injection h with h1
  injection h1 with hA hL
  subst hL
  have hs1 := sendDevtoolsCmd_sent heq1
  have hs2 := sendDevtoolsCmd_sent heq2
  have hs3 := sendDevtoolsCmd_sent heq3
  have hs4 := sendDevtoolsCmd_sent heq4
  have hs5 := sendDevtoolsCmd_sent heq5
  have hs6 := sendDevtoolsCmd_sent heq6
  have hs7 := sendDevtoolsCmd_sent heq7
  have hs8 := sendDevtoolsCmd_sent heq8
  have hs9 := sendDevtoolsCmd_sent heq9
  subst hs1 hs2 hs3 hs4 hs5 hs6 hs7 hs8 hs9
  constructor
  · rfl
  · intro sc hsc hm
    simp only [List.mem_cons, List.not_mem_nil, or_false] at hsc
    rcases hsc with rfl | rfl | rfl | rfl | rfl | rfl | rfl | rfl | rfl <;>
      first
        | rfl
        | simp at hm

/-- Witness for C3: a concrete run over a stream holding only the six direct
responses (and no breakpoint-hit event) succeeds with the stated trace. -/
theorem c3_reload_and_evaluate_trace_witness :
    ((traceOf (Tab.reload_and_evaluate c3Stream sampleTab "globalThis.x = 1" true)).map
        (fun sc => (sc.method, sc.awaited)) =
      [("Debugger.enable", true), ("Debugger.setInstrumentationBreakpoint", true),
       ("Page.reload", true), ("Runtime.evaluate", false),
       ("Runtime.evaluate", false), ("Runtime.evaluate", false),
       ("Debugger.removeBreakpoint", true), ("Debugger.resume", true),
       ("Debugger.disable", true)]) ∧
    (∀ sc ∈ traceOf (Tab.reload_and_evaluate c3Stream sampleTab "globalThis.x = 1" true),
        sc.method = "Runtime.evaluate" →
        sc.params = some (evalParams "globalThis.x = 1" false)) :=
  c3_reload_and_evaluate_trace c3Stream sampleTab "globalThis.x = 1" true
    (tabOf sampleTab (Tab.reload_and_evaluate c3Stream sampleTab "globalThis.x = 1" true))
    (traceOf (Tab.reload_and_evaluate c3Stream sampleTab "globalThis.x = 1" true))
    (by rfl)
